import Mathlib

/-!
Verification of the correlation-and-graph-construction engine of
`src/dot_builder.py` (AWS Connect contact tracer).

The Python source is shallowly embedded below: event records, invocation-log
entries and the graph-assembly state become Lean structures; every function is
translated from the source file (line references in the doc comments).
Rendering concerns (graphviz labels, icons, file output) are not modelled;
the embedding keeps the node/edge structure, the ordered node-id list, the
deduplication cache and the error counters, which is what the claims are
about.  Python `None` becomes `Option`, a Python `dict` becomes an
insertion-ordered association list, an uncaught Python exception becomes
`Option.none` in the returned value, and ISO-8601 timestamps are represented
by their millisecond value (`Int`), so the `sort` key and node-id prefix use
that value.
-/

/-- Prefix test on character lists (structurally recursive so the kernel can
evaluate it). -/
def charPrefix : List Char → List Char → Bool
  | [], _ => true
  | _ :: _, [] => false
  | p :: ps, c :: cs => p == c && charPrefix ps cs

/-- Occurrence test on character lists: does `pat` occur contiguously? -/
def charInfix (pat : List Char) : List Char → Bool
  | [] => pat.isEmpty
  | c :: cs => charPrefix pat (c :: cs) || charInfix pat cs

/-- Substring test, modelling the Python `in` operator on strings. -/
def strContains (s pat : String) : Bool :=
  charInfix pat.data s.data

/-- Embeds `ERROR_KEYWORDS` (src/dot_builder.py lines 36-41): the Results
keywords recognized as errors. -/
def ERROR_KEYWORDS : List String :=
  ["Error", "Failed", "Timeout", "Exception", "No prompt provided",
   "Instance has reached concurrent Lambda thread access limit",
   "Unsupported", "Invalid", "not found", "NotDone", "MultipleFound",
   "The Lambda Function Returned An Error."]

/-- Embeds `DUP_CONTACT_FLOW_MODULE_TYPE` (lines 44-46): module types whose
consecutive repetitions are aggregated. -/
def DUP_CONTACT_FLOW_MODULE_TYPE : List String :=
  ["SetAttributes", "SetFlowAttributes"]

/-- Embeds `OMIT_CONTACT_FLOW_MODULE_TYPE` (lines 49-51): module types that
produce no node at all. -/
def OMIT_CONTACT_FLOW_MODULE_TYPE : List String :=
  ["InvokeFlowModule"]

/-- Value of one entry of an event's `Parameters` dict: either a plain string
or a nested string-to-string mapping (the only shapes the embedded code paths
read). -/
inductive PVal where
  | s : String → PVal
  | kvs : List (String × String) → PVal
deriving DecidableEq, Repr

/-- Insertion-ordered dictionary lookup, modelling Python `dict.get`. -/
def alookup {κ α : Type} [BEq κ] : List (κ × α) → κ → Option α
  | [], _ => none
  | (k, v) :: rest, key => if k == key then some v else alookup rest key

/-- One contact-flow execution event record (the log lines iterated by
`build_module_detail` / `build_contact_flow_detail`).  `Timestamp` is the
ISO-8601 instant as milliseconds; `Results` defaults to the empty string when
absent, mirroring `log.get('Results', '')`. -/
structure Event where
  Timestamp : Int
  ContactId : String
  ContactFlowName : String
  ContactFlowModuleType : String
  Identifier : String
  Parameters : List (String × PVal)
  Results : String
  ExternalResults : Option PVal
deriving DecidableEq, Repr

/-- One invocation-log (Lambda) entry; `event` models the
`l["event"]["Details"]["Parameters"]` payload when present. -/
structure LogEntry where
  ContactId : String
  message : String
  level : String
  timestamp : Int
  xray_trace_id : String
  parameters : List (String × String)
  event : Option (List (String × String))
deriving DecidableEq, Repr

/-- Embeds `is_lambda_error` (lines 728-738): an `InvokeExternalResource`
event with `ExternalResults["isSuccess"] == "false"` is an error; a `KeyError`
(missing key) or `TypeError` (`ExternalResults` absent or not a dict) is
caught and yields `False`; any other value compares unequal (the Python
function then falls off the end returning the falsy `None`). -/
def is_lambda_error (log : Event) : Bool :=
  if log.ContactFlowModuleType == "InvokeExternalResource" then
    match log.ExternalResults with
    | some (PVal.kvs m) =>
      match alookup m "isSuccess" with
      | some v => v == "false"
      | none => false
    | _ => false
  else false

/-- Embeds the keyword half of the classification used at lines 758, 845 and
1116: `any(keyword in log.get('Results', '') for keyword in ERROR_KEYWORDS)`. -/
def kw_error (results : String) : Bool :=
  ERROR_KEYWORDS.any (fun k => strContains results k)

/-- Embeds the full per-event error classification
`is_error = any(...) or is_lambda_error(log)` (lines 845, 1116). -/
def classify (log : Event) : Bool :=
  kw_error log.Results || is_lambda_error log

/-- Embeds `define_module_type` (lines 87-101): refines `SetContactFlow` by
its `Type` parameter; returns the module type unchanged otherwise; the Python
function returns `None` (here `none`) for an unrecognized or absent `Type`. -/
def define_module_type (module_type : String) (param_json : List (String × PVal)) :
    Option String :=
  if module_type == "SetContactFlow" then
    let flow_type := alookup param_json "Type"
    if flow_type == some (PVal.s "CustomerHold")
        || flow_type == some (PVal.s "AgentHold") then
      some "SetHoldFlow"
    else if flow_type == some (PVal.s "CustomerWhisper")
        || flow_type == some (PVal.s "AgentWhisper") then
      some "SetWhisperFlow"
    else if flow_type == some (PVal.s "CustomerQueue") then
      some "SetCustomerQueueFlow"
    else if flow_type == some (PVal.s "DefaultAgentUI") then
      some "SetEventHook"
    else none
  else some module_type

/-- Embeds the loop body of `add_edges` (lines 66-78): walk the consecutive
pairs with their index, skipping a pair already in the `added_edges` set. -/
def add_edges_aux : List (String × String) → Nat → List (String × String) →
    List (String × String × Nat)
  | [], _, _ => []
  | p :: ps, i, added =>
    if p ∈ added then add_edges_aux ps (i + 1) added
    else (p.1, p.2, i) :: add_edges_aux ps (i + 1) (p :: added)

/-- Embeds `add_edges` (lines 66-78): the edges added to the graph for an
ordered node list, each as `(source, target, label index)`. -/
def add_edges (nodes : List String) : List (String × String × Nat) :=
  add_edges_aux (nodes.zip nodes.tail) 0 []

/-- Projection of an added edge to its ordered node pair. -/
def edge_pair (e : String × String × Nat) : String × String :=
  (e.1, e.2.1)

/-- Python `sys.maxsize` on a 64-bit platform, the initial `min_gap`
(line 389). -/
def maxsize : Nat := 9223372036854775807

/-- Modelled from the spec: `calculate_timestamp_gap` lives in `utils`,
outside `src/`; section 4.4 of the spec describes it as the absolute time gap
between the event's timestamp and the candidate's timestamp.  Timestamps are
milliseconds. -/
def calculate_timestamp_gap (t1 t2 : Int) : Nat :=
  (t1 - t2).natAbs

/-- One iteration of the minimum-gap scan of lines 392-396: keep the new
candidate only when its gap is strictly smaller than the best so far. -/
def pick_step (ts : Int) (acc : Nat × String) (l : LogEntry) : Nat × String :=
  let gap := calculate_timestamp_gap ts l.timestamp
  if gap < acc.1 then (gap, l.xray_trace_id) else acc

/-- Embeds the trace-identifier selection of `add_block_nodes`
(lines 389-402): with two or more matching entries, the minimum-gap scan runs
from `(sys.maxsize, "")`; with exactly one, its trace id is taken directly;
with none, `xid` stays the empty string (the code only logs). -/
def pick_trace_id (ts : Int) (target_logs : List LogEntry) : String :=
  if 1 < target_logs.length then
    (target_logs.foldl (pick_step ts) (maxsize, "")).2
  else
    match target_logs with
    | [l] => l.xray_trace_id
    | _ => ""

/-- Key-sorted form of a flat string dict, modelling
`json.dumps(d, sort_keys=True)` up to the (injective, for flat string dicts)
serialization: two dicts have equal dumps iff their key-sorted pair lists are
equal. -/
def sortKv (p : List (String × String)) : List (String × String) :=
  List.insertionSort (fun a b => a.1 ≤ b.1) p

/-- Left-to-right scan replacing each occurrence of `id&v` by `idnv`,
modelling `str.replace("id&v", "idnv")` on the character list. -/
def idnv_chars : List Char → List Char
  | [] => []
  | 'i' :: 'd' :: '&' :: 'v' :: rest => 'i' :: 'd' :: 'n' :: 'v' :: idnv_chars rest
  | c :: rest => c :: idnv_chars rest

/-- The `id&v`-to-`idnv` substitution of lines 364-365, applied to the dumped
string; since the pattern contains no JSON punctuation it never spans two
tokens of the dump, so it acts entry-wise on keys and values. -/
def repl_idnv (s : String) : String :=
  ⟨idnv_chars s.data⟩

/-- Normalized payload of the `"parameter"`-kind comparison (lines 362-367):
key-sorted dump with the `id&v` substitution. -/
def normParams (p : List (String × String)) : List (String × String) :=
  (sortKv p).map (fun kv => (repl_idnv kv.1, repl_idnv kv.2))

/-- Removal of a dict key, modelling `del d[k]` for the `varsConfig`
exception. -/
def eraseKey (p : List (String × String)) (k : String) : List (String × String) :=
  p.filter (fun kv => kv.1 != k)

/-- Embeds the `"Event"`-kind comparison of lines 369-385: drop `varsConfig`
from both payloads when both carry it, then compare the key-sorted dumps (no
`id&v` substitution on this path). -/
def event_params_match (log_parameters func_param : List (String × String)) : Bool :=
  if (alookup func_param "varsConfig").isSome &&
     (alookup log_parameters "varsConfig").isSome then
    sortKv (eraseKey func_param "varsConfig") ==
      sortKv (eraseKey log_parameters "varsConfig")
  else
    sortKv func_param == sortKv log_parameters

/-- Embeds the per-entry match test of the `target_logs` loop
(lines 358-386): the entry must share the event's `ContactId`; a
`"parameter"`-kind message compares normalized `parameters`, an
`"Event"`-kind message compares the nested event payload (no `event` field
means no match); any other message kind is not a match. -/
def log_matches (contact_id : String) (log_parameters : List (String × String))
    (l : LogEntry) : Bool :=
  if l.ContactId == contact_id then
    if strContains l.message "parameter" then
      normParams l.parameters == normParams log_parameters
    else if strContains l.message "Event" then
      match l.event with
      | some func_param => event_params_match log_parameters func_param
      | none => false
    else false
  else false

/-- A node emitted into the graph (`dot.node` calls), keeping the data the
claims speak about: `block` for a plain event node (lines 314-327), `dup`
for a flushed aggregation bucket (line 702), `xray` for the trace summary
node (lines 661-674) with its WARN/ERROR count. -/
inductive DotNode where
  | block (id : String) (is_error : Bool) (log : Event)
  | dup (id : String) (is_error : Bool) (contact_flow_name module_type : String)
        (params : List (List (String × PVal)))
  | xray (id : String) (warn_error : Nat)
deriving DecidableEq, Repr

/-- Embeds the node/edge/error effect of `build_xray_dot` (lines 612-681):
collect the function-log entries sharing the trace id, count their WARN and
ERROR levels, append one summary node
(`f"{Timestamp-cleaned}_{xray_trace_id}"`), and add the level counts to the
error count when any is positive.  The rendered label text and the external
trace retrieval are not modelled. -/
def build_xray_dot (dot : List DotNode) (nodes : List String) (error_count : Nat)
    (xray_trace_id : String) (function_logs : List LogEntry) (event_ts : Int) :
    List DotNode × List String × Nat :=
  let associated := function_logs.filter (fun l => l.xray_trace_id == xray_trace_id)
  let levels := associated.map (fun l => l.level)
  let l_error_count := (levels.filter (fun l => l == "ERROR")).length
  let l_warn_count := (levels.filter (fun l => l == "WARN")).length
  let node_id := toString event_ts ++ "_" ++ xray_trace_id
  let dot2 := dot ++ [DotNode.xray node_id (l_error_count + l_warn_count)]
  let nodes2 := nodes ++ [node_id]
  let ec2 := if 0 < l_error_count || 0 < l_warn_count then
      error_count + (l_error_count + l_warn_count)
    else error_count
  (dot2, nodes2, ec2)

/-- Embeds `add_block_nodes` (lines 303-413): append the event's node, then,
for an external invocation with a non-empty invocation-log map, filter the
function's entries for matches and splice in the trace summary node of the
selected trace id.  `gfn` stands for `get_func_name` (defined in `utils`,
outside `src/`), mapping the `FunctionArn` string to the key of the
invocation-log map.  A missing `FunctionArn` raises a `KeyError` outside the
`try` block, modelled as `none`; exceptions inside the `try` (for example a
non-dict `Parameters` payload) are caught and leave only the event node. -/
def add_block_nodes (module_type : String) (log : Event) (is_error : Bool)
    (dot : List DotNode) (nodes : List String) (node_id : String)
    (lambda_logs : List (String × List LogEntry)) (error_count : Nat)
    (gfn : String → String) :
    Option (List DotNode × List String × Nat) :=
  let dot2 := dot ++ [DotNode.block node_id is_error log]
  let nodes2 := nodes ++ [node_id]
  if define_module_type module_type log.Parameters == some "InvokeExternalResource"
      && !lambda_logs.isEmpty then
    match alookup log.Parameters "FunctionArn" with
    | some (PVal.s arn) =>
      let function_logs := (alookup lambda_logs (gfn arn)).getD []
      match alookup log.Parameters "Parameters" with
      | some (PVal.kvs log_parameters) =>
        let target_logs := function_logs.filter (log_matches log.ContactId log_parameters)
        if target_logs.isEmpty then some (dot2, nodes2, error_count)
        else some (build_xray_dot dot2 nodes2 error_count
          (pick_trace_id log.Timestamp target_logs) function_logs log.Timestamp)
      | _ => some (dot2, nodes2, error_count)
    | _ => none
  else some (dot2, nodes2, error_count)

/-- One bucket of the deduplication cache, as created by `add_node_cache`
(lines 716-724): first-seen node id, flow name, module type, first timestamp,
first block identifier, the accumulated list of the member events' parameter
dicts, and the error flag of the bucket. -/
structure CacheEntry where
  id : String
  contact_flow_name : String
  module_type : String
  timestamp : Int
  blockIdentifier : String
  Parameters : List (List (String × PVal))
  is_error : Bool
deriving DecidableEq, Repr

/-- The deduplication cache: an insertion-ordered dict keyed by
`(ContactFlowName, module_type)`. -/
abbrev NodeCache := List ((String × String) × CacheEntry)

/-- Embeds `add_node_cache` (lines 707-726): an existing bucket gets the
event's whole parameter dict appended to its `Parameters` list (nothing else
of the bucket changes — in particular `is_error` keeps the first event's
value); a fresh bucket records the current node id, log fields, a singleton
parameter list and the event's error flag. -/
def add_node_cache (module_type : String) (node_cache : NodeCache)
    (node_id : String) (log : Event) (is_error : Bool) : NodeCache :=
  let unique_key := (log.ContactFlowName, module_type)
  match alookup node_cache unique_key with
  | some _ =>
    node_cache.map (fun kv =>
      if kv.1 == unique_key then
        (kv.1, { kv.2 with Parameters := kv.2.Parameters ++ [log.Parameters] })
      else kv)
  | none =>
    node_cache ++ [(unique_key,
      { id := node_id, contact_flow_name := log.ContactFlowName,
        module_type := module_type, timestamp := log.Timestamp,
        blockIdentifier := log.Identifier, Parameters := [log.Parameters],
        is_error := is_error })]

/-- Embeds `dup_block_sanitize` (lines 684-704): emit exactly one node per
cache bucket, in bucket insertion order, carrying the bucket's node id, error
flag and accumulated parameter list. -/
def dup_block_sanitize (node_cache : NodeCache) (dot : List DotNode)
    (nodes : List String) : List DotNode × List String :=
  node_cache.foldl (fun acc kv =>
    (acc.1 ++ [DotNode.dup kv.2.id kv.2.is_error kv.2.contact_flow_name
        kv.2.module_type kv.2.Parameters],
     acc.2 ++ [kv.2.id])) (dot, nodes)

/-- Loop state of `build_module_detail` (lines 832-866): emitted nodes, the
ordered node-id list, the deduplication cache, `last_module_type` and the
error counter.  `last_module_type` starts as the string `""`; after caching an
event the source stores `log.get(module_type)` — a lookup of a key named
after the module type, absent from every event record — so it becomes `None`
(`none`). -/
structure BState where
  dot : List DotNode
  nodes : List String
  cache : NodeCache
  last_module_type : Option String
  err : Nat
deriving DecidableEq, Repr

/-- The cache-flush fragment of the loop (lines 861-864 and 1142-1144): when
the cache is non-empty and the current type differs from `last_module_type`,
emit the buckets and clear the cache. -/
def flush_if_needed (module_type : String) (st : BState) : BState :=
  if !st.cache.isEmpty && (st.last_module_type != some module_type) then
    let r := dup_block_sanitize st.cache st.dot st.nodes
    { st with dot := r.1, nodes := r.2, cache := [] }
  else st

/-- One iteration of the `build_module_detail` event loop (lines 844-866):
classify the event (counting errors), derive the node id from timestamp and
index, cache aggregatable types, otherwise flush a non-empty cache when the
type differs from `last_module_type` and emit the event's node unless the
type is omitted. -/
def bmd_step (lambda_logs : List (String × List LogEntry)) (gfn : String → String)
    (st : BState) (i : Nat) (log : Event) : Option BState :=
  let is_error := classify log
  let st1 := if is_error then { st with err := st.err + 1 } else st
  let node_id := toString log.Timestamp ++ "_" ++ toString i
  let module_type := log.ContactFlowModuleType
  if DUP_CONTACT_FLOW_MODULE_TYPE.contains module_type then
    some { st1 with
      cache := add_node_cache module_type st1.cache node_id log is_error,
      last_module_type := none }
  else
    let st2 := flush_if_needed module_type st1
    if OMIT_CONTACT_FLOW_MODULE_TYPE.contains module_type then some st2
    else
      (add_block_nodes module_type log is_error st2.dot st2.nodes node_id
          lambda_logs st2.err gfn).map
        (fun r => { st2 with dot := r.1, nodes := r.2.1, err := r.2.2 })

/-- The event loop of `build_module_detail`, folding `bmd_step` over the
index-enumerated sorted events; `none` propagates an uncaught exception. -/
def bmd_loop (lambda_logs : List (String × List LogEntry)) (gfn : String → String) :
    List (Nat × Event) → BState → Option BState
  | [], st => some st
  | (i, log) :: rest, st =>
    match bmd_step lambda_logs gfn st i log with
    | none => none
    | some st2 => bmd_loop lambda_logs gfn rest st2

/-- Embeds `build_module_detail` (lines 827-875): sort the events by
timestamp (Python's stable sort), run the dedup/emit loop from an empty
cache, `last_module_type = ""` and the incoming error count, and return the
emitted nodes, the ordered node-id list and the error count.  The final
`dup_block_sanitize` flush after the loop is commented out in the source
(line 869), so a cache left over at end of stream is dropped — the result
deliberately reflects that. -/
def build_module_detail (logs : List Event)
    (lambda_logs : List (String × List LogEntry)) (module_error_count : Nat)
    (gfn : String → String) : Option (List DotNode × List String × Nat) :=
  let sorted := List.insertionSort (fun a b => a.Timestamp ≤ b.Timestamp) logs
  (bmd_loop lambda_logs gfn sorted.enum
      { dot := [], nodes := [], cache := [], last_module_type := some "",
        err := module_error_count }).map
    (fun st => (st.dot, st.nodes, st.err))

/-- Embeds the error-count arithmetic of the `flow_type == "module"` branch of
`process_sub_flow` (lines 741-785): the pre-scan over the unit's logs adds one
per keyword-classified event and one per lambda-classified event to the
incoming count, then the unit's own `build_module_detail` count (started at
zero) is added on top.  The rendered summary node and timestamp span are not
modelled. -/
def process_sub_flow_module (l_logs : List Event) (error_count : Nat)
    (lambda_logs : List (String × List LogEntry)) (gfn : String → String) :
    Option Nat :=
  let pre := l_logs.foldl (fun acc log =>
    let acc1 := if kw_error log.Results then acc + 1 else acc
    if is_lambda_error log then acc1 + 1 else acc1) error_count
  (build_module_detail l_logs lambda_logs 0 gfn).map (fun r => pre + r.2.2)

/-- Metadata of one interaction, as read from the contact summary list in
`build_main_contacts` (lines 1350-1362). -/
structure Contact where
  ContactId : String
  PreviousContactId : Option String
  RelatedContactId : Option String
  InitiationMethod : String
deriving DecidableEq, Repr

/-- A top-level linking edge added by `build_main_contacts`: `undirected`
models `dir="none"`. -/
inductive LinkEdge where
  | directed (src dst label : String)
  | undirected (src dst label : String)
deriving DecidableEq, Repr

/-- Insertion-ordered dict write, modelling
`root_contact_ids[contact_id] = ...`. -/
def upsert (m : List (String × String)) (k v : String) : List (String × String) :=
  if m.any (fun p => p.1 == k) then
    m.map (fun p => if p.1 == k then (k, v) else p)
  else m ++ [(k, v)]

/-- Embeds the `elif` branch of lines 1370-1371: a predecessor link from the
predecessor's last node to this interaction's first node, labeled with the
interaction's initiation method, requires the predecessor to be among the
built subgraphs with a non-empty node list. -/
def prev_link_edge (sg : List (String × List String)) (c : Contact) : List LinkEdge :=
  match c.PreviousContactId with
  | none => []
  | some pid =>
    match alookup sg pid with
    | none => []
    | some pn =>
      match pn.getLast? with
      | none => []
      | some pl =>
        match alookup sg c.ContactId with
        | none => []
        | some cn =>
          match cn.head? with
          | none => []
          | some ch => [LinkEdge.directed pl ch c.InitiationMethod]

/-- Embeds the `try` block of lines 1367-1373 for one interaction: a related
interaction with non-empty nodes on both sides yields the undirected
`"Related"` edge; a `KeyError` on the related or own lookup is caught and
yields no edge; an empty node list on either side falls through to the
predecessor branch. -/
def contact_link_edges (sg : List (String × List String)) (c : Contact) :
    List LinkEdge :=
  match c.RelatedContactId with
  | none => prev_link_edge sg c
  | some rid =>
    match alookup sg rid with
    | none => []
    | some rn =>
      match rn.getLast? with
      | none => prev_link_edge sg c
      | some rl =>
        match alookup sg c.ContactId with
        | none => []
        | some cn =>
          match cn.head? with
          | none => prev_link_edge sg c
          | some ch => [LinkEdge.undirected rl ch "Related"]

/-- Embeds the linking passes of `build_main_contacts` (lines 1350-1377):
the first pass registers every interaction without a predecessor, and every
interaction with a related id, in `root_contact_ids` (keyed by contact id,
valued by initiation method) and adds the related/predecessor edges; the
second pass adds one `start` edge per registered root with a non-empty node
list.  `sg` is `subgraph_nodes`: the ordered node list each interaction's
graph produced. -/
def link_contacts (search_contacts : List Contact)
    (sg : List (String × List String)) : List LinkEdge :=
  let r := search_contacts.foldl (fun (acc : List (String × String) × List LinkEdge) c =>
    if c.ContactId.isEmpty then acc
    else
      let roots1 := if c.PreviousContactId == none then
          upsert acc.1 c.ContactId c.InitiationMethod
        else acc.1
      let roots2 := if c.RelatedContactId != none then
          upsert roots1 c.ContactId c.InitiationMethod
        else roots1
      (roots2, acc.2 ++ contact_link_edges sg c)) ([], [])
  r.2 ++ r.1.foldl (fun es kv =>
    match alookup sg kv.1 with
    | some ns =>
      match ns.head? with
      | some h0 => es ++ [LinkEdge.directed "start" h0 kv.2]
      | none => es
    | none => es) []

/-- The deduplication-cache projection of the event loop over an
index-enumerated run of aggregatable events: each iteration calls
`add_node_cache` with the event's own module type and the node id
`f"{Timestamp}_{index}"`, exactly as `bmd_step` does. -/
def cache_run (run : List (Nat × Event)) : NodeCache :=
  run.foldl (fun c p =>
    add_node_cache p.2.ContactFlowModuleType c
      (toString p.2.Timestamp ++ "_" ++ toString p.1) p.2 (classify p.2)) []

/-- Sample `SetAttributes` event with two parameter entries (flow `F`). -/
def eSetA1 : Event :=
  { Timestamp := 1, ContactId := "C1", ContactFlowName := "F",
    ContactFlowModuleType := "SetAttributes", Identifier := "b1",
    Parameters := [("Key", PVal.s "a"), ("Value", PVal.s "1")],
    Results := "", ExternalResults := none }

/-- Second sample `SetAttributes` event with two parameter entries. -/
def eSetA2 : Event :=
  { Timestamp := 2, ContactId := "C1", ContactFlowName := "F",
    ContactFlowModuleType := "SetAttributes", Identifier := "b2",
    Parameters := [("Key", PVal.s "b"), ("Value", PVal.s "2")],
    Results := "", ExternalResults := none }

/-- Like `eSetA2` but keyword-classified as an error (`Results = "Error"`). -/
def eSetA2err : Event :=
  { eSetA2 with Results := "Error" }

/-- Sample non-aggregatable, non-omitted event that forces a cache flush. -/
def eStop : Event :=
  { Timestamp := 3, ContactId := "C1", ContactFlowName := "F",
    ContactFlowModuleType := "Disconnect", Identifier := "b3",
    Parameters := [], Results := "", ExternalResults := none }

/-- Sample event with a keyword error in `Results` (and no lambda error). -/
def eKwErr : Event :=
  { Timestamp := 1, ContactId := "C1", ContactFlowName := "F",
    ContactFlowModuleType := "Disconnect", Identifier := "b4",
    Parameters := [], Results := "Error: x", ExternalResults := none }

/-- Sample external-invocation event whose normalized parameters are
`[("x", "1")]`. -/
def eInvoke : Event :=
  { Timestamp := 5, ContactId := "C1", ContactFlowName := "F",
    ContactFlowModuleType := "InvokeExternalResource", Identifier := "b9",
    Parameters := [("FunctionArn", PVal.s "arn:f"),
                   ("Parameters", PVal.kvs [("x", "1")])],
    Results := "", ExternalResults := none }

/-- Sample invocation-log entry whose `ContactId` differs from `eInvoke`'s,
so it never matches. -/
def leNoMatch : LogEntry :=
  { ContactId := "C2", message := "parameter log", level := "INFO",
    timestamp := 10, xray_trace_id := "T", parameters := [("x", "1")],
    event := none }

/-- Sample correlation candidate 50 ms after the event at 1000 ms. -/
def le50 : LogEntry :=
  { ContactId := "C1", message := "m", level := "INFO", timestamp := 1050,
    xray_trace_id := "X-50", parameters := [], event := none }

/-- Sample correlation candidate 400 ms after the event at 1000 ms. -/
def le400 : LogEntry :=
  { ContactId := "C1", message := "m", level := "INFO", timestamp := 1400,
    xray_trace_id := "Y-400", parameters := [], event := none }

/-- Sample interaction A of the composition scenario: no predecessor, no
related interaction. -/
def cA : Contact :=
  { ContactId := "A", PreviousContactId := none, RelatedContactId := none,
    InitiationMethod := "INBOUND" }

/-- Sample interaction B of the composition scenario: related to A. -/
def cB : Contact :=
  { ContactId := "B", PreviousContactId := none, RelatedContactId := some "A",
    InitiationMethod := "API" }

/-- Per-interaction node lists for the composition scenario. -/
def sgAB : List (String × List String) :=
  [("A", ["a1", "a2"]), ("B", ["b1", "b2"])]

lemma add_edges_aux_mem (ps : List (String × String)) :
    ∀ (i : Nat) (added : List (String × String)) (q : String × String),
      q ∈ (add_edges_aux ps i added).map edge_pair ↔ (q ∈ ps ∧ q ∉ added) := by
  induction ps with
  | nil => intro i added q; simp [add_edges_aux]
  | cons p ps ih =>
    intro i added q
    by_cases hp : p ∈ added
    · simp only [add_edges_aux, if_pos hp, ih, List.mem_cons]
      constructor
      · rintro ⟨hq, hna⟩; exact ⟨Or.inr hq, hna⟩
      · rintro ⟨hq | hq, hna⟩
        · exact absurd (hq ▸ hp) hna
        · exact ⟨hq, hna⟩
    · simp only [add_edges_aux, if_neg hp, List.map_cons]
      have hpair : edge_pair (p.1, p.2, i) = p := rfl
      rw [hpair, List.mem_cons, List.mem_cons, ih]
      constructor
      · rintro (rfl | ⟨hq, hna⟩)
        · exact ⟨Or.inl rfl, hp⟩
        · exact ⟨Or.inr hq, fun hc => hna (List.mem_cons_of_mem _ hc)⟩
      · rintro ⟨hq | hq, hna⟩
        · exact Or.inl hq
        · by_cases hqp : q = p
          · exact Or.inl hqp
          · refine Or.inr ⟨hq, fun hc => ?_⟩
            rcases List.mem_cons.mp hc with h1 | h2
            · exact hqp h1
            · exact hna h2

lemma add_edges_aux_sublist (ps : List (String × String)) :
    ∀ (i : Nat) (added : List (String × String)),
      ((add_edges_aux ps i added).map edge_pair).Sublist ps := by
  induction ps with
  | nil => intro i added; simp [add_edges_aux]
  | cons p ps ih =>
    intro i added
    by_cases hp : p ∈ added
    · simpa [add_edges_aux, if_pos hp] using (ih (i + 1) added).cons p
    · simp only [add_edges_aux, if_neg hp, List.map_cons]
      have hpair : edge_pair (p.1, p.2, i) = p := rfl
      rw [hpair]
      exact (ih (i + 1) (p :: added)).cons₂ p

lemma add_edges_aux_nodup (ps : List (String × String)) :
    ∀ (i : Nat) (added : List (String × String)),
      ((add_edges_aux ps i added).map edge_pair).Nodup := by
  induction ps with
  | nil => intro i added; simp [add_edges_aux]
  | cons p ps ih =>
    intro i added
    by_cases hp : p ∈ added
    · simpa [add_edges_aux, if_pos hp] using ih (i + 1) added
    · simp only [add_edges_aux, if_neg hp, List.map_cons]
      have hpair : edge_pair (p.1, p.2, i) = p := rfl
      rw [hpair, List.nodup_cons]
      refine ⟨fun hmem => ?_, ih (i + 1) (p :: added)⟩
      have := (add_edges_aux_mem ps (i + 1) (p :: added) p).mp hmem
      exact this.2 (List.mem_cons_self p added)

lemma add_edges_aux_eq (ps : List (String × String)) :
    ∀ (i : Nat) (added : List (String × String)), ps.Nodup →
      (∀ p ∈ ps, p ∉ added) → (add_edges_aux ps i added).map edge_pair = ps := by
  induction ps with
  | nil => intro i added _ _; simp [add_edges_aux]
  | cons p ps ih =>
    intro i added hnd hdisj
    have hp : p ∉ added := hdisj p (List.mem_cons_self p ps)
    simp only [add_edges_aux, if_neg hp, List.map_cons]
    have hpair : edge_pair (p.1, p.2, i) = p := rfl
    rw [hpair, ih (i + 1) (p :: added) hnd.of_cons]
    intro q hq
    simp only [List.mem_cons, not_or]
    exact ⟨fun hqp => (List.nodup_cons.mp hnd).1 (hqp ▸ hq), hdisj q (List.mem_cons_of_mem _ hq)⟩

lemma mem_consecutive_pair : ∀ (l : List String) (x : String), 2 ≤ l.length →
    x ∈ l → ∃ p ∈ l.zip l.tail, x = p.1 ∨ x = p.2 := by
  intro l
  induction l with
  | nil => intro x h; simp at h
  | cons a t ih =>
    intro x hlen hx
    match t, hlen with
    | b :: t2, _ =>
      rcases List.mem_cons.mp hx with rfl | hx2
      · exact ⟨(x, b), List.mem_cons_self _ _, Or.inl rfl⟩
      · match t2 with
        | [] =>
          have hxb : x = b := by simpa using hx2
          exact ⟨(a, b), List.mem_cons_self _ _, Or.inr hxb⟩
        | c :: t3 =>
          obtain ⟨p, hp, hxp⟩ := ih x (by simp [List.length_cons]) hx2
          exact ⟨p, List.mem_cons_of_mem _ hp, hxp⟩

/-- C1: `add_edges` emits exactly the consecutive pairs of the node list, in
index order (a sublist of the zip with the same members), never the same
ordered pair twice; the edge count is `n - 1` whenever no consecutive pair
repeats; and — amended — every node of a list with AT LEAST TWO nodes appears
in some edge.  (The original claim asserted the last part for every non-empty
list; a single-node list produces no edge at all, see the counterexample.) -/
theorem c1_edges_amended (nodes : List String) :
    ((add_edges nodes).map edge_pair).Sublist (nodes.zip nodes.tail) ∧
    (∀ q, q ∈ (add_edges nodes).map edge_pair ↔ q ∈ nodes.zip nodes.tail) ∧
    ((add_edges nodes).map edge_pair).Nodup ∧
    ((nodes.zip nodes.tail).Nodup → (add_edges nodes).length = nodes.length - 1) ∧
    (2 ≤ nodes.length → ∀ x ∈ nodes, ∃ e ∈ add_edges nodes, x = e.1 ∨ x = e.2.1) := by
  refine ⟨add_edges_aux_sublist _ 0 [], fun q => ?_, add_edges_aux_nodup _ 0 [], ?_, ?_⟩
  · rw [add_edges, add_edges_aux_mem]
    simp
  · intro hnd
    have h := add_edges_aux_eq (nodes.zip nodes.tail) 0 [] hnd (by simp)
    have hlen : (add_edges nodes).length = (nodes.zip nodes.tail).length := by
      rw [add_edges, ← List.length_map _ edge_pair, h]
    rw [hlen, List.length_zip, List.length_tail]
    exact Nat.min_eq_right (Nat.sub_le _ _)
  · intro hlen x hx
    obtain ⟨p, hp, hxp⟩ := mem_consecutive_pair nodes x hlen hx
    have hmem : p ∈ (add_edges nodes).map edge_pair := by
      rw [add_edges, add_edges_aux_mem]
      exact ⟨hp, by simp⟩
    obtain ⟨e, he, hep⟩ := List.mem_map.mp hmem
    refine ⟨e, he, ?_⟩
    rcases hxp with h1 | h2
    · exact Or.inl (by rw [h1, ← hep]; rfl)
    · exact Or.inr (by rw [h2, ← hep]; rfl)

/-- C1 (witness): at the three-node list the amended theorem gives two edges
and the first node appears in the edge chain. -/
theorem c1_edges_amended_witness :
    (add_edges ["a", "b", "c"]).length = 2 ∧
    (∃ e ∈ add_edges ["a", "b", "c"], "a" = e.1 ∨ "a" = e.2.1) :=
  ⟨(c1_edges_amended ["a", "b", "c"]).2.2.2.1 (by decide),
   (c1_edges_amended ["a", "b", "c"]).2.2.2.2 (by decide) "a" (by decide)⟩

/-- C1 (counterexample): the claim as stated fails for a non-empty single-node
list — `add_edges ["a"]` adds no edge, so the appended node `"a"` appears in
no edge of the chain. -/
theorem c1_counterexample :
    ("a" ∈ (["a"] : List String)) ∧ add_edges ["a"] = [] ∧
    ¬ (∃ e ∈ add_edges ["a"], "a" = e.1 ∨ "a" = e.2.1) := by
  refine ⟨by decide, rfl, ?_⟩
  rintro ⟨e, he, -⟩
  simp [add_edges, add_edges_aux] at he

lemma add_node_cache_fold (f mt : String) (rest : List (Nat × Event)) :
    ∀ (entry : CacheEntry),
      (∀ p ∈ rest, p.2.ContactFlowName = f ∧ p.2.ContactFlowModuleType = mt) →
      rest.foldl (fun c p =>
        add_node_cache p.2.ContactFlowModuleType c
          (toString p.2.Timestamp ++ "_" ++ toString p.1) p.2 (classify p.2))
        [((f, mt), entry)] =
      [((f, mt), { entry with
        Parameters := entry.Parameters ++ rest.map (fun p => p.2.Parameters) })] := by
  induction rest with
  | nil => intro entry _; simp
  | cons p rest ih =>
    intro entry hall
    obtain ⟨h1, h2⟩ := hall p (List.mem_cons_self _ _)
    simp only [List.foldl_cons]
    have hstep : add_node_cache p.2.ContactFlowModuleType [((f, mt), entry)]
        (toString p.2.Timestamp ++ "_" ++ toString p.1) p.2 (classify p.2) =
        [((f, mt),
          { entry with Parameters := entry.Parameters ++ [p.2.Parameters] })] := by
      simp [add_node_cache, alookup, h1, h2]
    rw [hstep, ih _ (fun q hq => hall q (List.mem_cons_of_mem _ hq))]
    simp

lemma cache_run_single (run : List (Nat × Event)) (f mt : String)
    (p : Nat × Event) (rest : List (Nat × Event)) (hrun : run = p :: rest)
    (hall : ∀ q ∈ run, q.2.ContactFlowName = f ∧ q.2.ContactFlowModuleType = mt) :
    cache_run run = [((f, mt),
      { id := toString p.2.Timestamp ++ "_" ++ toString p.1,
        contact_flow_name := f, module_type := mt,
        timestamp := p.2.Timestamp, blockIdentifier := p.2.Identifier,
        Parameters := run.map (fun q => q.2.Parameters),
        is_error := classify p.2 })] := by
  subst hrun
  obtain ⟨h1, h2⟩ := hall p (List.mem_cons_self _ _)
  simp only [cache_run, List.foldl_cons]
  have hstep : add_node_cache p.2.ContactFlowModuleType []
      (toString p.2.Timestamp ++ "_" ++ toString p.1) p.2 (classify p.2) =
      [((f, mt),
        { id := toString p.2.Timestamp ++ "_" ++ toString p.1,
          contact_flow_name := f, module_type := mt,
          timestamp := p.2.Timestamp, blockIdentifier := p.2.Identifier,
          Parameters := [p.2.Parameters], is_error := classify p.2 })] := by
    simp [add_node_cache, alookup, h1, h2]
  rw [hstep,
    add_node_cache_fold f mt rest _ (fun q hq => hall q (List.mem_cons_of_mem _ hq))]
  simp

lemma dup_block_sanitize_len : ∀ (node_cache : NodeCache) (dot : List DotNode)
    (nodes : List String),
    (dup_block_sanitize node_cache dot nodes).1.length =
      dot.length + node_cache.length ∧
    (dup_block_sanitize node_cache dot nodes).2.length =
      nodes.length + node_cache.length := by
  intro nc
  induction nc with
  | nil => intro dot nodes; simp [dup_block_sanitize]
  | cons kv rest ih =>
    intro dot nodes
    have h := ih (dot ++ [DotNode.dup kv.2.id kv.2.is_error kv.2.contact_flow_name
      kv.2.module_type kv.2.Parameters]) (nodes ++ [kv.2.id])
    simp only [dup_block_sanitize, List.foldl_cons] at h ⊢
    constructor
    · rw [h.1]; simp [List.length_append]; omega
    · rw [h.2]; simp [List.length_append]; omega

/-- C2 (amended): a run of consecutive events sharing `(flowName, moduleType)`
fills exactly one cache bucket, and flushing emits exactly one node per
bucket — but the bucket's accumulated parameter list has one element per
member EVENT (each event's whole parameter dict is appended as one element),
so its length is the NUMBER OF EVENTS in the run, not the sum of the events'
individual parameter counts as the claim stated. -/
theorem c2_aggregation_amended :
    (∀ (run : List (Nat × Event)) (f mt : String),
      run ≠ [] →
      (∀ p ∈ run, p.2.ContactFlowName = f ∧ p.2.ContactFlowModuleType = mt) →
      (cache_run run).length = 1 ∧
      (cache_run run).map (fun kv => kv.2.Parameters.length) = [run.length]) ∧
    (∀ (node_cache : NodeCache) (dot : List DotNode) (nodes : List String),
      (dup_block_sanitize node_cache dot nodes).1.length =
        dot.length + node_cache.length ∧
      (dup_block_sanitize node_cache dot nodes).2.length =
        nodes.length + node_cache.length) := by
  constructor
  · intro run f mt hne hall
    match run, hne with
    | p :: rest, _ =>
      rw [cache_run_single (p :: rest) f mt p rest rfl hall]
      simp
  · exact dup_block_sanitize_len

/-- C2 (witness): a two-event run yields one bucket whose parameter list has
length 2, and flushing it emits exactly one node. -/
theorem c2_aggregation_amended_witness :
    ((cache_run [(0, eSetA1), (1, eSetA2)]).length = 1 ∧
     (cache_run [(0, eSetA1), (1, eSetA2)]).map (fun kv => kv.2.Parameters.length) =
       [([(0, eSetA1), (1, eSetA2)] : List (Nat × Event)).length]) ∧
    (dup_block_sanitize (cache_run [(0, eSetA1), (1, eSetA2)]) [] []).1.length =
      ([] : List DotNode).length + (cache_run [(0, eSetA1), (1, eSetA2)]).length :=
  ⟨c2_aggregation_amended.1 [(0, eSetA1), (1, eSetA2)] "F" "SetAttributes"
      (by decide) (by decide),
   (c2_aggregation_amended.2 (cache_run [(0, eSetA1), (1, eSetA2)]) [] []).1⟩

/-- C2 (counterexample): two consecutive `SetAttributes` events with two
parameters each, followed by a flushing event, emit one aggregate node whose
accumulated parameter list has length 2, while the sum of the events'
parameter counts is 4 — refuting the claimed length. -/
theorem c2_counterexample :
    build_module_detail [eSetA1, eSetA2, eStop] [] 0 (fun s => s) =
      some ([DotNode.dup "1_0" false "F" "SetAttributes"
               [eSetA1.Parameters, eSetA2.Parameters],
             DotNode.block "3_2" false eStop], ["1_0", "3_2"], 0) ∧
    [eSetA1.Parameters, eSetA2.Parameters].length = 2 ∧
    eSetA1.Parameters.length + eSetA2.Parameters.length = 4 ∧ (2 : Nat) ≠ 4 :=
  ⟨by decide, by decide, by decide, by decide⟩

/-- C4 (amended): the flushed bucket's error flag is exactly the FIRST member
event's classification — `add_node_cache` never updates `is_error` on append,
so later members' classifications are ignored instead of being OR-ed in. -/
theorem c4_error_flag_amended :
    ∀ (run : List (Nat × Event)) (f mt : String) (p : Nat × Event)
      (rest : List (Nat × Event)), run = p :: rest →
      (∀ q ∈ run, q.2.ContactFlowName = f ∧ q.2.ContactFlowModuleType = mt) →
      (cache_run run).map (fun kv => kv.2.is_error) = [classify p.2] := by
  intro run f mt p rest hrun hall
  rw [cache_run_single run f mt p rest hrun hall]
  simp

/-- C4 (witness): for a run whose first member is clean, the bucket flag is
that first member's (false) classification. -/
theorem c4_error_flag_amended_witness :
    (cache_run [(0, eSetA1), (1, eSetA2err)]).map (fun kv => kv.2.is_error) =
      [classify eSetA1] :=
  c4_error_flag_amended [(0, eSetA1), (1, eSetA2err)] "F" "SetAttributes"
    (0, eSetA1) [(1, eSetA2err)] rfl (by decide)

/-- C4 (counterexample): a run whose first event is clean and second event is
keyword-classified as an error flushes to a node with `is_error = false`
(rendered in the non-error color), refuting the claimed OR of member
classifications. -/
theorem c4_counterexample :
    build_module_detail [eSetA1, eSetA2err, eStop] [] 0 (fun s => s) =
      some ([DotNode.dup "1_0" false "F" "SetAttributes"
               [eSetA1.Parameters, eSetA2err.Parameters],
             DotNode.block "3_2" false eStop], ["1_0", "3_2"], 1) ∧
    classify eSetA2err = true :=
  ⟨by decide, by decide⟩

/-- C3: the end-of-stream flush the claim (and spec section 4.5) requires is
absent from the code — the post-loop `dup_block_sanitize` call is commented
out at src/dot_builder.py line 869 (and line 1150 for
`build_contact_flow_detail`).  A log consisting of a single aggregatable
`SetAttributes` event leaves the loop in the AGGREGATING state with a
non-empty buffered bucket, yet `build_module_detail` returns with NO node
emitted: the trailing run is silently dropped. -/
theorem c3_trailing_run_dropped :
    bmd_loop [] (fun s => s) [(0, eSetA1)]
        { dot := [], nodes := [], cache := [], last_module_type := some "",
          err := 0 } =
      some { dot := [], nodes := [],
             cache := [(("F", "SetAttributes"),
               { id := "1_0", contact_flow_name := "F",
                 module_type := "SetAttributes", timestamp := 1,
                 blockIdentifier := "b1", Parameters := [eSetA1.Parameters],
                 is_error := false })],
             last_module_type := none, err := 0 } ∧
    build_module_detail [eSetA1] [] 0 (fun s => s) = some ([], [], 0) :=
  ⟨by decide, by decide⟩

/-- C5: error classification is total and pure; an external-invocation event
whose `ExternalResults.isSuccess` is the string `"false"` always classifies
as an error; when the `isSuccess` key is absent, or `ExternalResults` is
absent or not a dict, the lambda check contributes nothing and classification
reduces to the keyword test (degrading to not-an-error on malformed input
instead of raising); and a keyword hit alone classifies as an error. -/
theorem c5_error_classifier :
    (∀ (log : Event) (m : List (String × String)),
      log.ContactFlowModuleType = "InvokeExternalResource" →
      log.ExternalResults = some (PVal.kvs m) →
      alookup m "isSuccess" = some "false" →
      classify log = true) ∧
    (∀ (log : Event) (m : List (String × String)),
      log.ExternalResults = some (PVal.kvs m) →
      alookup m "isSuccess" = none →
      classify log = kw_error log.Results) ∧
    (∀ (log : Event), log.ExternalResults = none →
      classify log = kw_error log.Results) ∧
    (∀ (log : Event) (s : String), log.ExternalResults = some (PVal.s s) →
      classify log = kw_error log.Results) ∧
    (∀ (log : Event), kw_error log.Results = true → classify log = true) := by
  refine ⟨?_, ?_, ?_, ?_, ?_⟩
  · intro log m h1 h2 h3
    simp [classify, is_lambda_error, h1, h2, h3]
  · intro log m h2 h3
    by_cases h1 : log.ContactFlowModuleType == "InvokeExternalResource" <;>
      simp [classify, is_lambda_error, h1, h2, h3]
  · intro log h2
    by_cases h1 : log.ContactFlowModuleType == "InvokeExternalResource" <;>
      simp [classify, is_lambda_error, h1, h2]
  · intro log s h2
    by_cases h1 : log.ContactFlowModuleType == "InvokeExternalResource" <;>
      simp [classify, is_lambda_error, h1, h2]
  · intro log h
    simp [classify, h]

/-- C5 (witness): concrete instances — an `isSuccess = "false"` invocation
classifies as an error, and `eInvoke` (no `ExternalResults`) classifies by
keywords alone. -/
theorem c5_error_classifier_witness :
    classify { eInvoke with
      ExternalResults := some (PVal.kvs [("isSuccess", "false")]) } = true ∧
    classify eInvoke = kw_error eInvoke.Results :=
  ⟨c5_error_classifier.1 _ [("isSuccess", "false")] rfl rfl rfl,
   c5_error_classifier.2.2.1 eInvoke rfl⟩

lemma pick_fold_keep (ts : Int) :
    ∀ (l : List LogEntry) (acc : Nat × String),
      (∀ q ∈ l, acc.1 ≤ calculate_timestamp_gap ts q.timestamp) →
      l.foldl (pick_step ts) acc = acc := by
  intro l
  induction l with
  | nil => intro acc _; rfl
  | cons q l ih =>
    intro acc hall
    have hq := hall q (List.mem_cons_self _ _)
    have hstep : pick_step ts acc q = acc := by
      simp [pick_step, Nat.not_lt.mpr hq]
    rw [List.foldl_cons, hstep]
    exact ih acc (fun p hp => hall p (List.mem_cons_of_mem _ hp))

lemma pick_fold_min (ts : Int) (c : LogEntry) (l₂ : List LogEntry)
    (hle : ∀ q ∈ l₂, calculate_timestamp_gap ts c.timestamp ≤
      calculate_timestamp_gap ts q.timestamp) :
    ∀ (l₁ : List LogEntry) (acc : Nat × String),
      calculate_timestamp_gap ts c.timestamp < acc.1 →
      (∀ q ∈ l₁, calculate_timestamp_gap ts c.timestamp <
        calculate_timestamp_gap ts q.timestamp) →
      (l₁ ++ c :: l₂).foldl (pick_step ts) acc =
        (calculate_timestamp_gap ts c.timestamp, c.xray_trace_id) := by
  intro l₁
  induction l₁ with
  | nil =>
    intro acc hacc _
    rw [List.nil_append, List.foldl_cons]
    have hstep : pick_step ts acc c =
        (calculate_timestamp_gap ts c.timestamp, c.xray_trace_id) := by
      simp [pick_step, hacc]
    rw [hstep]
    exact pick_fold_keep ts l₂ _ hle
  | cons q l₁ ih =>
    intro acc hacc hall
    rw [List.cons_append, List.foldl_cons]
    have hq := hall q (List.mem_cons_self _ _)
    have hnext : calculate_timestamp_gap ts c.timestamp < (pick_step ts acc q).1 := by
      by_cases hlt : calculate_timestamp_gap ts q.timestamp < acc.1 <;>
        simp [pick_step, hlt, hq, hacc]
    exact ih _ hnext (fun p hp => hall p (List.mem_cons_of_mem _ hp))

/-- C6: with exactly one matching invocation-log entry its trace identifier
is used directly; with two or more, the entry whose absolute timestamp gap to
the event is minimal wins, and an entry strictly closer than all earlier
candidates and at most as far as all later ones is selected — so equal gaps
resolve to the first-seen candidate (the scan only replaces on a strictly
smaller gap). -/
theorem c6_trace_selection :
    (∀ (ts : Int) (c : LogEntry), pick_trace_id ts [c] = c.xray_trace_id) ∧
    (∀ (ts : Int) (l₁ : List LogEntry) (c : LogEntry) (l₂ : List LogEntry),
      1 < (l₁ ++ c :: l₂).length →
      calculate_timestamp_gap ts c.timestamp < maxsize →
      (∀ q ∈ l₁, calculate_timestamp_gap ts c.timestamp <
        calculate_timestamp_gap ts q.timestamp) →
      (∀ q ∈ l₂, calculate_timestamp_gap ts c.timestamp ≤
        calculate_timestamp_gap ts q.timestamp) →
      pick_trace_id ts (l₁ ++ c :: l₂) = c.xray_trace_id) := by
  constructor
  · intro ts c; rfl
  · intro ts l₁ c l₂ hlen hmax h1 h2
    simp only [pick_trace_id, if_pos hlen]
    rw [pick_fold_min ts c l₂ h2 l₁ (maxsize, "") hmax h1]

/-- C6 (witness): the spec scenario — candidates at gaps of 50 ms and 400 ms
from the event at 1000 ms select the 50 ms candidate's trace id, and a single
candidate is taken directly. -/
theorem c6_trace_selection_witness :
    pick_trace_id 1000 [le50, le400] = le50.xray_trace_id ∧
    pick_trace_id 1000 [le400] = le400.xray_trace_id :=
  ⟨c6_trace_selection.2 1000 [] le50 [le400] (by decide) (by decide)
      (by decide) (by decide),
   c6_trace_selection.1 1000 le400⟩

/-- C7: when the match filter finds no invocation-log entry for an
external-invocation event, `add_block_nodes` returns normally with exactly
the event's own node appended and the error count unchanged — no trace
sub-graph is spliced in and no exception escapes (the code only prints a
diagnostic). -/
theorem c7_zero_match_silent :
    ∀ (module_type : String) (log : Event) (is_error : Bool)
      (dot : List DotNode) (nodes : List String) (node_id : String)
      (lambda_logs : List (String × List LogEntry)) (error_count : Nat)
      (gfn : String → String) (arn : String)
      (log_parameters : List (String × String)),
      alookup log.Parameters "FunctionArn" = some (PVal.s arn) →
      alookup log.Parameters "Parameters" = some (PVal.kvs log_parameters) →
      ((alookup lambda_logs (gfn arn)).getD []).filter
          (log_matches log.ContactId log_parameters) = [] →
      add_block_nodes module_type log is_error dot nodes node_id lambda_logs
          error_count gfn =
        some (dot ++ [DotNode.block node_id is_error log], nodes ++ [node_id],
          error_count) := by
  intro mt log is_error dot nodes node_id ll ec gfn arn lp h1 h2 h3
  simp only [add_block_nodes, h1, h2, h3]
  split
  · simp
  · rfl

/-- C7 (witness): a concrete external invocation with one candidate log
entry from a different interaction — zero matches — yields only the
invocation node. -/
theorem c7_zero_match_silent_witness :
    add_block_nodes "InvokeExternalResource" eInvoke false [] [] "5_0"
        [("arn:f", [leNoMatch])] 0 (fun s => s) =
      some ([] ++ [DotNode.block "5_0" false eInvoke], [] ++ ["5_0"], 0) :=
  c7_zero_match_silent "InvokeExternalResource" eInvoke false [] [] "5_0"
    [("arn:f", [leNoMatch])] 0 (fun s => s) "arn:f" [("x", "1")]
    (by decide) (by decide) (by decide)

lemma pre_scan_count : ∀ (l : List Event) (acc : Nat),
    l.foldl (fun acc log =>
      let acc1 := if kw_error log.Results then acc + 1 else acc
      if is_lambda_error log then acc1 + 1 else acc1) acc =
    acc + (l.filter (fun e => kw_error e.Results)).length +
      (l.filter (fun e => is_lambda_error e)).length := by
  intro l
  induction l with
  | nil => intro acc; simp
  | cons e l ih =>
    intro acc
    rw [List.foldl_cons]
    by_cases hk : kw_error e.Results <;> by_cases hl : is_lambda_error e <;>
      simp only [hk, hl, if_true, if_false, ih, List.filter_cons] <;>
      simp [hk, hl] <;> omega

lemma add_block_nodes_empty (mt : String) (log : Event) (is_error : Bool)
    (dot : List DotNode) (nodes : List String) (node_id : String) (ec : Nat)
    (gfn : String → String) :
    add_block_nodes mt log is_error dot nodes node_id [] ec gfn =
      some (dot ++ [DotNode.block node_id is_error log], nodes ++ [node_id], ec) := by
  simp [add_block_nodes]

lemma flush_if_needed_err (module_type : String) (st : BState) :
    (flush_if_needed module_type st).err = st.err := by
  unfold flush_if_needed
  split <;> rfl

lemma bmd_step_err_empty (gfn : String → String) (st : BState) (i : Nat)
    (log : Event) :
    (bmd_step [] gfn st i log).map (fun s => s.err) =
      some (st.err + (if classify log = true then 1 else 0)) := by
  simp only [bmd_step]
  by_cases hdup : DUP_CONTACT_FLOW_MODULE_TYPE.contains log.ContactFlowModuleType
  · rw [if_pos hdup]
    by_cases hc : classify log <;> simp [hc]
  · rw [if_neg hdup]
    by_cases homit : OMIT_CONTACT_FLOW_MODULE_TYPE.contains log.ContactFlowModuleType
    · rw [if_pos homit]
      simp only [Option.map_some', flush_if_needed_err]
      by_cases hc : classify log <;> simp [hc]
    · rw [if_neg homit, add_block_nodes_empty]
      simp only [Option.map_some', flush_if_needed_err]
      by_cases hc : classify log <;> simp [hc, flush_if_needed_err]

lemma bmd_loop_err_empty (gfn : String → String) :
    ∀ (pairs : List (Nat × Event)) (st : BState),
      (bmd_loop [] gfn pairs st).map (fun s => s.err) =
        some (st.err +
          ((pairs.map (fun p => p.2)).filter (fun e => classify e)).length) := by
  intro pairs
  induction pairs with
  | nil => intro st; simp [bmd_loop]
  | cons p rest ih =>
    intro st
    obtain ⟨i, e⟩ := p
    have hstep := bmd_step_err_empty gfn st i e
    cases hs : bmd_step [] gfn st i e with
    | none => rw [hs] at hstep; simp at hstep
    | some st2 =>
      rw [hs] at hstep
      simp only [Option.map_some'] at hstep
      have herr : st2.err = st.err + (if classify e = true then 1 else 0) :=
        Option.some.inj hstep
      simp only [bmd_loop, hs, ih st2, herr, List.map_cons, List.filter_cons]
      by_cases hc : classify e
      · simp [hc]
        try omega
      · simp [hc]
        try omega

/-- C8 (amended): with an empty invocation-log map (so no trace splice can
add further counts), the error count `process_sub_flow` returns for a module
unit is the incoming count plus its own pre-scan — one per keyword-classified
event PLUS one per lambda-classified event — plus the nested
`build_module_detail` pass's own count of one per classified event: every
classified event is counted (at least) twice, once by the parent pre-scan and
once by the nested assembly, contrary to the claim's "never double counted". -/
theorem c8_error_count_amended :
    ∀ (l_logs : List Event) (error_count : Nat) (gfn : String → String),
      process_sub_flow_module l_logs error_count [] gfn =
        some (error_count +
          (l_logs.filter (fun e => kw_error e.Results)).length +
          (l_logs.filter (fun e => is_lambda_error e)).length +
          (l_logs.filter (fun e => classify e)).length) := by
  intro l ec gfn
  have hperm : (List.insertionSort (fun a b => a.Timestamp ≤ b.Timestamp) l).Perm l :=
    List.perm_insertionSort _ l
  have hcount :
      ((List.insertionSort (fun a b => a.Timestamp ≤ b.Timestamp) l).filter
        (fun e => classify e)).length = (l.filter (fun e => classify e)).length :=
    (hperm.filter _).length_eq
  have hloop := bmd_loop_err_empty gfn
    ((List.insertionSort (fun a b => a.Timestamp ≤ b.Timestamp) l).enum)
    { dot := [], nodes := [], cache := [], last_module_type := some "", err := 0 }
  have henum : (((List.insertionSort (fun a b => a.Timestamp ≤ b.Timestamp) l).enum).map
      (fun p => p.2)) = List.insertionSort (fun a b => a.Timestamp ≤ b.Timestamp) l :=
    List.enum_map_snd _
  rw [henum, hcount] at hloop
  cases hb : bmd_loop [] gfn
      ((List.insertionSort (fun a b => a.Timestamp ≤ b.Timestamp) l).enum)
      { dot := [], nodes := [], cache := [], last_module_type := some "", err := 0 } with
  | none => rw [hb] at hloop; simp at hloop
  | some st =>
    rw [hb] at hloop
    simp only [Option.map_some'] at hloop
    have herr : st.err = 0 + (l.filter (fun e => classify e)).length :=
      Option.some.inj hloop
    simp only [process_sub_flow_module, build_module_detail, hb, Option.map_some',
      pre_scan_count, herr]
    simp [Nat.add_assoc]

/-- C8 (counterexample): a module unit consisting of one keyword-classified
error event, with no invocation logs, returns an error count of 2 — the
single error event is counted once by the parent pre-scan and once by the
nested assembly — while the unit contains exactly one classified error event,
refuting "no event's error contributes more than once". -/
theorem c8_counterexample :
    process_sub_flow_module [eKwErr] 0 [] (fun s => s) = some 2 ∧
    ([eKwErr].filter (fun e => classify e)).length = 1 ∧ (2 : Nat) ≠ 1 :=
  ⟨by decide, by decide, by decide⟩

/-- C9 (amended): composing A (no predecessor, no related id) and B
(`RelatedContactId = A`), both with non-empty node lists, yields the
start-to-A edge labeled with A's initiation method and the undirected
A-last-to-B-first edge labeled `"Related"` — AND, additionally, a
start-to-B-first edge labeled with B's initiation method, because the code
also registers every interaction carrying a related id as a root
(src/dot_builder.py lines 1361-1362); the claim's "exactly these two linking
edges" does not hold. -/
theorem c9_linking_amended :
    ∀ (A B : Contact) (sg : List (String × List String))
      (an bn : List String) (ah al bh : String),
      A.ContactId.isEmpty = false → B.ContactId.isEmpty = false →
      (A.ContactId == B.ContactId) = false →
      A.PreviousContactId = none → A.RelatedContactId = none →
      B.RelatedContactId = some A.ContactId →
      alookup sg A.ContactId = some an → alookup sg B.ContactId = some bn →
      an.head? = some ah → an.getLast? = some al → bn.head? = some bh →
      link_contacts [A, B] sg =
        [LinkEdge.undirected al bh "Related",
         LinkEdge.directed "start" ah A.InitiationMethod,
         LinkEdge.directed "start" bh B.InitiationMethod] := by
  intro A B sg an bn ah al bh hAe hBe hne hAp hAr hBr hsA hsB hh hl hbh
  have hne' : A.ContactId ≠ B.ContactId := by simpa using hne
  have hrelB : contact_link_edges sg B = [LinkEdge.undirected al bh "Related"] := by
    simp only [contact_link_edges, hBr, hsA, hl, hsB, hbh]
  have hrelA : contact_link_edges sg A = [] := by
    simp only [contact_link_edges, prev_link_edge, hAr, hAp]
  cases hBp : B.PreviousContactId with
  | none =>
    simp only [link_contacts, List.foldl_cons, List.foldl_nil, hAe, hBe, hAp, hAr,
      hBr, hBp, hrelA, hrelB, upsert, List.any_cons, List.any_nil, hne,
      Bool.if_false_left, Bool.if_true_left]
    simp [hne, hne', hsA, hsB, hh, hbh]
  | some pid =>
    simp only [link_contacts, List.foldl_cons, List.foldl_nil, hAe, hBe, hAp, hAr,
      hBr, hBp, hrelA, hrelB, upsert, List.any_cons, List.any_nil, hne,
      Bool.if_false_left, Bool.if_true_left]
    simp [hne, hne', hsA, hsB, hh, hbh]

/-- C9 (witness): the concrete scenario instantiating the amended theorem. -/
theorem c9_linking_amended_witness :
    link_contacts [cA, cB] sgAB =
      [LinkEdge.undirected "a2" "b1" "Related",
       LinkEdge.directed "start" "a1" cA.InitiationMethod,
       LinkEdge.directed "start" "b1" cB.InitiationMethod] :=
  c9_linking_amended cA cB sgAB ["a1", "a2"] ["b1", "b2"] "a1" "a2" "b1"
    (by decide) (by decide) (by decide) rfl rfl rfl (by decide) (by decide)
    rfl (by decide) rfl

/-- C9 (counterexample): in the claim's scenario the composed graph contains
a THIRD linking edge, start-to-B labeled with B's initiation method, so the
claimed "exactly these linking edges" (two of them) is false. -/
theorem c9_counterexample :
    link_contacts [cA, cB] sgAB =
      [LinkEdge.undirected "a2" "b1" "Related",
       LinkEdge.directed "start" "a1" "INBOUND",
       LinkEdge.directed "start" "b1" "API"] ∧
    LinkEdge.directed "start" "b1" "API" ∈ link_contacts [cA, cB] sgAB ∧
    (link_contacts [cA, cB] sgAB).length = 3 :=
  ⟨by decide, by decide, by decide⟩

/-- C10: `define_module_type` is the identity (up to the implicit-`None`
`Option`) on every module type other than `"SetContactFlow"`; for
`"SetContactFlow"` it returns the refined type exactly for the six recognized
`Type` values, and returns `none` when the `Type` parameter is absent,
unrecognized, or not a string. -/
theorem c10_define_module_type :
    (∀ (mt : String) (params : List (String × PVal)), mt ≠ "SetContactFlow" →
      define_module_type mt params = some mt) ∧
    (∀ (params : List (String × PVal)) (t : String),
      alookup params "Type" = some (PVal.s t) →
      ((t = "CustomerHold" ∨ t = "AgentHold") →
        define_module_type "SetContactFlow" params = some "SetHoldFlow") ∧
      ((t = "CustomerWhisper" ∨ t = "AgentWhisper") →
        define_module_type "SetContactFlow" params = some "SetWhisperFlow") ∧
      (t = "CustomerQueue" →
        define_module_type "SetContactFlow" params = some "SetCustomerQueueFlow") ∧
      (t = "DefaultAgentUI" →
        define_module_type "SetContactFlow" params = some "SetEventHook") ∧
      (t ∉ ["CustomerHold", "AgentHold", "CustomerWhisper", "AgentWhisper",
            "CustomerQueue", "DefaultAgentUI"] →
        define_module_type "SetContactFlow" params = none)) ∧
    (∀ (params : List (String × PVal)), alookup params "Type" = none →
      define_module_type "SetContactFlow" params = none) ∧
    (∀ (params : List (String × PVal)) (m : List (String × String)),
      alookup params "Type" = some (PVal.kvs m) →
      define_module_type "SetContactFlow" params = none) := by
  refine ⟨?_, ?_, ?_, ?_⟩
  · intro mt params hne
    simp [define_module_type, hne]
  · intro params t h
    refine ⟨?_, ?_, ?_, ?_, ?_⟩
    · rintro (rfl | rfl) <;> simp [define_module_type, h]
    · rintro (rfl | rfl) <;> simp [define_module_type, h]
    · rintro rfl; simp [define_module_type, h]
    · rintro rfl; simp [define_module_type, h]
    · intro hno
      simp only [List.mem_cons, List.not_mem_nil, or_false, not_or] at hno
      obtain ⟨n1, n2, n3, n4, n5, n6⟩ := hno
      simp [define_module_type, h, n1, n2, n3, n4, n5, n6]
  · intro params h
    simp [define_module_type, h]
  · intro params m h
    simp [define_module_type, h]

/-- C10 (witness): concrete instances of each behavior of
`define_module_type`. -/
theorem c10_define_module_type_witness :
    define_module_type "PlayPrompt" [] = some "PlayPrompt" ∧
    define_module_type "SetContactFlow" [("Type", PVal.s "CustomerQueue")] =
      some "SetCustomerQueueFlow" ∧
    define_module_type "SetContactFlow" [("Type", PVal.s "Unknown")] = none ∧
    define_module_type "SetContactFlow" [] = none :=
  ⟨c10_define_module_type.1 "PlayPrompt" [] (by decide),
   (c10_define_module_type.2.1 [("Type", PVal.s "CustomerQueue")] "CustomerQueue"
      (by decide)).2.2.1 rfl,
   (c10_define_module_type.2.1 [("Type", PVal.s "Unknown")] "Unknown"
      (by decide)).2.2.2.2 (by decide),
   c10_define_module_type.2.2.1 [] rfl⟩
